import Mathlib

/-!
Verification of `dyna_settings` (src/dyna_settings/dyna_settings.py).

Shallow embedding of the module's core: the `DynaSettings` provider base
class, the `DynaSettingsController` (registration with single-match
exclusivity, value resolution with environment-variable trump mode, reset),
and the error conditions the module raises.

Modelling conventions:
- Python values that flow through `dyna_value` / `get_value` are modelled by
  `PyVal` with Python truthiness (`PyVal.isTruthy`): `None`, `False`, `0`,
  and `""` are falsy.
- A provider's `_value_dict` is a finite map `String → Option DictEntry`;
  an entry is either a plain value (`DictEntry.val`) or a value that is an
  instance of `types.FunctionType` (`DictEntry.func`), mirroring the
  `isinstance(val, types.FunctionType)` branch of `get_value`.
- Object identity (Python `in` on a list of instances, which compares with
  default `==`, i.e. identity) is modelled by an `instId : Nat` field; the
  embedding identifies instances exactly when their `instId`s coincide.
- `os.environ` is a parameter `env : String → Option String`;
  `os.environ.get(name)` is `env name`, and Python's `if val:` on the result
  is "`some v` with `v ≠ ""`".
- Mutation is explicit state passing: `register` returns the controller
  state after the call together with the raised exception (if any) and the
  log records emitted, because Python mutations performed before a `raise`
  persist (e.g. `did_find_multiple_matches` is set before the
  multiple-match exception propagates).
- The argument of `register` is either a `DynaSettings` instance or an
  object that is not an instance of `DynaSettings` (`RegArg.other`); the
  latter covers the `else` branch that logs `Not a type of DynaSettings`
  and changes nothing.
-/

/-- Python values relevant to the module, with Python truthiness. -/
inductive PyVal where
  | none
  | bool (b : Bool)
  | int (n : Int)
  | str (s : String)
  deriving DecidableEq, Repr

/-- Python truthiness: `None`, `False`, `0` and `""` are falsy. -/
def PyVal.isTruthy : PyVal → Bool
  | .none => false
  | .bool b => b
  | .int n => n != 0
  | .str s => s != ""

/-- An entry of a provider's `_value_dict`: either a plain stored value, or a
value that is an instance of `types.FunctionType` (invoked by `get_value`
with the production value as its named argument). -/
inductive DictEntry where
  | val (v : PyVal)
  | func (f : PyVal → PyVal)

/-- A `DynaSettings` instance.  `detectResult` is what `env_detector()`
returns for this instance, `valueDictSpec` is the dictionary returned by
`value_dict()`, `wantsTrump` is `_environ_vars_trump`, and `valueDictState`
is the mutable `_value_dict` (initially empty, populated by
`init_values`).  `instId` models Python object identity. -/
structure DynaSettings where
  instId : Nat
  detectResult : Bool
  valueDictSpec : String → Option DictEntry
  wantsTrump : Bool
  valueDictState : String → Option DictEntry

namespace DynaSettings

/-- A freshly constructed instance: `__init__` sets `_value_dict = {}`. -/
def mkFresh (instId : Nat) (detectResult : Bool)
    (valueDictSpec : String → Option DictEntry) (wantsTrump : Bool) :
    DynaSettings :=
  { instId := instId, detectResult := detectResult,
    valueDictSpec := valueDictSpec, wantsTrump := wantsTrump,
    valueDictState := fun _ => Option.none }

/-- `init_values`: `self._value_dict.update(self.value_dict())` — keys of
`value_dict()` override existing keys of `_value_dict`. -/
def init_values (p : DynaSettings) : DynaSettings :=
  { p with valueDictState := fun n =>
      match p.valueDictSpec n with
      | some e => some e
      | Option.none => p.valueDictState n }

/-- `get_value`: look `setting_name` up in `_value_dict`; a present
`FunctionType` entry is invoked with the production value, another present
entry is returned directly, an absent name yields `production_value`. -/
def get_value (p : DynaSettings) (setting_name : String)
    (production_value : PyVal) : PyVal :=
  match p.valueDictState setting_name with
  | some (.val v) => v
  | some (.func f) => f production_value
  | Option.none => production_value

end DynaSettings

/-- The exceptions `register` can raise: the duplicate-registration
`Exception('Re-registering …')` and the multiple-match
`Exception('Multiple environment checks matched …')`. -/
inductive RegError where
  | reRegistering
  | multipleMatch
  deriving DecidableEq, Repr

/-- Severities of the log records `register` emits (`LOG.warning` on a
duplicate registration, `LOG.error` on a non-`DynaSettings` object). -/
inductive LogLevel where
  | warning
  | error
  deriving DecidableEq, Repr

/-- The state of a `DynaSettingsController` (its four `__init__` fields). -/
structure DynaSettingsController where
  dyna_settings_classes : List DynaSettings
  detected_settings : Option DynaSettings
  did_find_multiple_matches : Bool
  environ_vars_trump : Bool

namespace DynaSettingsController

/-- `__init__`: empty registry, no detected settings, both flags false. -/
def initial : DynaSettingsController :=
  { dyna_settings_classes := [],
    detected_settings := Option.none,
    did_find_multiple_matches := false,
    environ_vars_trump := false }

end DynaSettingsController

/-- The argument of `register`: a `DynaSettings` instance, or an object that
is not an instance of `DynaSettings` (identified only by its identity). -/
inductive RegArg where
  | instA (p : DynaSettings)
  | other (objId : Nat)

/-- What one call of `register` produces: the exception raised (if any), the
controller state after the call, and the log records emitted. -/
structure RegOutcome where
  result : Except RegError Unit
  state : DynaSettingsController
  logs : List LogLevel

namespace DynaSettingsController

/-- `register`, line by line.  The duplicate check
`env_settings_class in self.dyna_settings_classes` compares by object
identity (`instId`).  On a detected multiple match the
`did_find_multiple_matches` flag is set before the exception is raised, and
the instance is not appended.  On a successful detection `init_values` runs,
the trump flag is merged (`if not self.environ_vars_trump: …`), the instance
becomes `detected_settings`, and it is appended to the registry; an instance
whose detection fails is appended as well.  A non-`DynaSettings` object only
produces an error log. -/
def register (c : DynaSettingsController) (arg : RegArg) : RegOutcome :=
  match arg with
  | .instA p =>
    if c.dyna_settings_classes.any (fun q => q.instId == p.instId) then
      { result := .error .reRegistering, state := c, logs := [.warning] }
    else if p.detectResult then
      match c.detected_settings with
      | some _ =>
        { result := .error .multipleMatch,
          state := { c with did_find_multiple_matches := true },
          logs := [] }
      | Option.none =>
        let p' := p.init_values
        { result := .ok (),
          state := { c with
            environ_vars_trump :=
              if ¬ c.environ_vars_trump then p'.wantsTrump
              else c.environ_vars_trump,
            detected_settings := some p',
            dyna_settings_classes := c.dyna_settings_classes ++ [p'] },
          logs := [] }
    else
      { result := .ok (),
        state := { c with
          dyna_settings_classes := c.dyna_settings_classes ++ [p] },
        logs := [] }
  | .other _ =>
    { result := .ok (), state := c, logs := [.error] }

/-- The exception `NoMatchingSettingsClass` raised by `dyna_value`. -/
def dyna_value (c : DynaSettingsController) (env : String → Option String)
    (setting_name : String) (production_value : PyVal) :
    Except Unit PyVal :=
  let trumped : Option String :=
    if c.environ_vars_trump then
      match env setting_name with
      | some v => if v == "" then Option.none else some v
      | Option.none => Option.none
    else Option.none
  match trumped with
  | some v => .ok (.str v)
  | Option.none =>
    match c.detected_settings with
    | Option.none =>
      if production_value ≠ PyVal.none then .ok production_value
      else .error ()
    | some p =>
      let val := p.get_value setting_name production_value
      if c.environ_vars_trump ∧ ¬ val.isTruthy then .error ()
      else .ok val

/-- `reset`: clears all four fields back to their `__init__` values. -/
def reset (c : DynaSettingsController) : DynaSettingsController :=
  { c with
    detected_settings := Option.none,
    dyna_settings_classes := [],
    did_find_multiple_matches := false,
    environ_vars_trump := false }

/-- Registering a whole sequence of arguments, in order, keeping only the
controller state (the exceptions of individual calls are dropped: a caller
that catches them observes exactly this state evolution). -/
def registerAll (c : DynaSettingsController) : List RegArg →
    DynaSettingsController
  | [] => c
  | a :: as => (c.register a).state.registerAll as

end DynaSettingsController

/-! ## Concrete instances used to exercise the operations -/

/-- A mapping `{'HOST': '192.168.56.101'}` as returned by a `value_dict()`. -/
def hostDict : String → Option DictEntry := fun n =>
  if n = "HOST" then some (.val (.str "192.168.56.101")) else Option.none

/-- A provider whose `env_detector()` returns true and that supplies
`hostDict`. -/
def provP : DynaSettings := DynaSettings.mkFresh 1 true hostDict false

/-- A second, distinct provider whose `env_detector()` also returns true. -/
def provQ : DynaSettings := DynaSettings.mkFresh 2 true hostDict false

/-- The controller after registering `provP` on a fresh controller. -/
def regP : DynaSettingsController :=
  (DynaSettingsController.initial.register (.instA provP)).state

/-- `regP` with environment-variable trump mode switched on. -/
def regPTrump : DynaSettingsController :=
  { regP with environ_vars_trump := true }

/-- A fresh controller with trump mode switched on and no provider. -/
def cTrump : DynaSettingsController :=
  { DynaSettingsController.initial with environ_vars_trump := true }

/-- An environment with no variables set. -/
def envNone : String → Option String := fun _ => Option.none

/-- An environment with `HOST=10.0.0.9`. -/
def envHost : String → Option String := fun n =>
  if n = "HOST" then some "10.0.0.9" else Option.none

/-- A `FunctionType` dictionary entry computing data derived from the
production value (the Python idiom `lambda production_value:
'derived:' + production_value`). -/
def secretFn : PyVal → PyVal := fun v =>
  match v with
  | .str s => .str ("derived:" ++ s)
  | x => x

/-- A mapping storing the callable `secretFn` under `'SECRET'`. -/
def secretDict : String → Option DictEntry := fun n =>
  if n = "SECRET" then some (.func secretFn) else Option.none

/-- An initialized provider holding the `secretDict` mapping. -/
def provS : DynaSettings :=
  (DynaSettings.mkFresh 3 true secretDict false).init_values

/-- A mapping giving the empty string for `'HOST'`. -/
def emptyDict : String → Option DictEntry := fun n =>
  if n = "HOST" then some (.val (.str "")) else Option.none

/-- A detecting provider whose mapping gives `''` for `'HOST'`. -/
def provE : DynaSettings := DynaSettings.mkFresh 4 true emptyDict false

/-- The controller after registering `provE`, with trump mode on. -/
def regETrump : DynaSettingsController :=
  { (DynaSettingsController.initial.register (.instA provE)).state with
    environ_vars_trump := true }

/-! ## Helper lemmas -/

theorem DynaSettings.instId_init_values (p : DynaSettings) :
    p.init_values.instId = p.instId := rfl

namespace DynaSettingsController

/-- `register` never replaces an occupied active-provider slot. -/
theorem register_preserves_detected (c : DynaSettingsController)
    (P : DynaSettings) (arg : RegArg) (hP : c.detected_settings = some P) :
    (c.register arg).state.detected_settings = some P := by
  cases arg with
  | other o => simpa [register] using hP
  | instA p =>
    unfold register
    by_cases hdup :
        c.dyna_settings_classes.any (fun q => q.instId == p.instId) = true
    · simp [hdup, hP]
    · by_cases hdet : p.detectResult = true
      · simp [hdup, hdet, hP]
      · simp [hdup, hdet, hP]

/-- One `register` call never un-sets the trump flag. -/
theorem register_preserves_trump (c : DynaSettingsController) (arg : RegArg)
    (h : c.environ_vars_trump = true) :
    (c.register arg).state.environ_vars_trump = true := by
  cases arg with
  | other o => simpa [register] using h
  | instA p =>
    unfold register
    by_cases hdup :
        c.dyna_settings_classes.any (fun q => q.instId == p.instId) = true
    · simp [hdup, h]
    · by_cases hdet : p.detectResult = true
      · cases hdet' : c.detected_settings with
        | some P => simp [hdup, hdet, hdet', h]
        | none => simp [hdup, hdet, hdet', h]
      · simp [hdup, hdet, h]

end DynaSettingsController

/-! ## Claim theorems -/

namespace DynaSettingsController

/-- C1: with a provider `P` active, registering a further (not previously
registered) provider `q` whose detection predicate is true raises the
multiple-match error, sets the sticky double-match flag, and leaves `P`
active; moreover no `register` call whatsoever replaces an occupied
active-provider slot. -/
theorem register_second_match (c : DynaSettingsController)
    (P q : DynaSettings)
    (hP : c.detected_settings = some P)
    (hfresh : c.dyna_settings_classes.any
      (fun r => r.instId == q.instId) = false)
    (hq : q.detectResult = true) :
    (c.register (.instA q)).result = .error .multipleMatch ∧
    (c.register (.instA q)).state.did_find_multiple_matches = true ∧
    (c.register (.instA q)).state.detected_settings = some P ∧
    ∀ arg : RegArg, (c.register arg).state.detected_settings = some P := by
  refine ⟨?_, ?_, ?_, fun arg => register_preserves_detected c P arg hP⟩
  · simp [register, hfresh, hq, hP]
  · simp [register, hfresh, hq, hP]
  · simp [register, hfresh, hq, hP]

/-- C2: once an instance has been registered successfully, registering the
identical instance again raises the re-registration error — whatever its
detection predicate returned — and changes no controller state. -/
theorem register_duplicate (c : DynaSettingsController) (p : DynaSettings)
    (hok : (c.register (.instA p)).result = .ok ()) :
    ((c.register (.instA p)).state.register (.instA p)).result
        = .error .reRegistering ∧
    ((c.register (.instA p)).state.register (.instA p)).state
        = (c.register (.instA p)).state := by
  by_cases hdup :
      c.dyna_settings_classes.any (fun q => q.instId == p.instId) = true
  · exfalso
    simp [register, hdup] at hok
  · by_cases hdet : p.detectResult = true
    · cases hdetd : c.detected_settings with
      | some P =>
        exfalso
        simp [register, hdup, hdet, hdetd] at hok
      | none =>
        constructor <;>
          simp [register, hdup, hdet, hdetd, DynaSettings.init_values]
    · constructor <;> simp [register, hdup, hdet]

/-- C3: with no active provider and trump mode off, `dyna_value` returns a
non-absent/non-empty production value unchanged and raises
`NoMatchingSettingsClass` when the production value is `None`. -/
theorem dyna_value_no_provider (c : DynaSettingsController)
    (env : String → Option String) (name : String) (fb : PyVal)
    (hdet : c.detected_settings = Option.none)
    (htrump : c.environ_vars_trump = false) :
    (fb.isTruthy = true → c.dyna_value env name fb = .ok fb) ∧
    (fb = PyVal.none → c.dyna_value env name fb = .error ()) := by
  constructor
  · intro hfb
    have hne : fb ≠ PyVal.none := by
      intro h
      rw [h] at hfb
      simp [PyVal.isTruthy] at hfb
    simp [dyna_value, htrump, hdet, hne]
  · intro hfb
    subst hfb
    simp [dyna_value, htrump, hdet]

end DynaSettingsController

/-- C4: `get_value` returns the production value unchanged when the name is
absent from the mapping, invokes a stored `FunctionType` entry on the
production value, and returns any other stored entry directly. -/
theorem DynaSettings.get_value_spec (p : DynaSettings) (name : String)
    (fb : PyVal) :
    (p.valueDictState name = Option.none → p.get_value name fb = fb) ∧
    (∀ f, p.valueDictState name = some (.func f) →
      p.get_value name fb = f fb) ∧
    (∀ v, p.valueDictState name = some (.val v) →
      p.get_value name fb = v) := by
  refine ⟨fun h => ?_, fun f h => ?_, fun v h => ?_⟩ <;>
    simp [DynaSettings.get_value, h]

namespace DynaSettingsController

/-- C5: with trump mode enabled and the environment variable of the
requested name set to a non-empty value, `dyna_value` returns that value
immediately, for every controller state (any active provider included) and
every production value. -/
theorem dyna_value_trump_env (c : DynaSettingsController)
    (env : String → Option String) (name : String) (fb : PyVal) (v : String)
    (htrump : c.environ_vars_trump = true)
    (henv : env name = some v) (hne : v ≠ "") :
    c.dyna_value env name fb = .ok (.str v) := by
  simp [dyna_value, htrump, henv, hne]

/-- C6: with trump mode enabled, the environment variable of the requested
name absent or empty, and an active provider whose resolved value for the
name is falsy, `dyna_value` raises `NoMatchingSettingsClass` instead of
returning the falsy value. -/
theorem dyna_value_trump_falsy (c : DynaSettingsController)
    (env : String → Option String) (name : String) (fb : PyVal)
    (p : DynaSettings)
    (htrump : c.environ_vars_trump = true)
    (henv : env name = Option.none ∨ env name = some "")
    (hdet : c.detected_settings = some p)
    (hval : (p.get_value name fb).isTruthy = false) :
    c.dyna_value env name fb = .error () := by
  rcases henv with henv | henv <;>
    simp [dyna_value, htrump, henv, hdet, hval]

/-- C7: the controller-wide trump flag is monotone under registration: once
true, it stays true across any further sequence of `register` calls. -/
theorem registerAll_trump_monotone (c : DynaSettingsController)
    (args : List RegArg) (h : c.environ_vars_trump = true) :
    (c.registerAll args).environ_vars_trump = true := by
  induction args generalizing c with
  | nil => simpa [registerAll] using h
  | cons a as ih =>
    simpa [registerAll] using ih _ (register_preserves_trump c a h)

/-- C8: `reset` turns every controller state into the state of a freshly
constructed controller: no active provider, empty registry, double-match
flag false, trump mode off. -/
theorem reset_eq_initial (c : DynaSettingsController) :
    c.reset = DynaSettingsController.initial := rfl

/-- C9: registering an object that is not a `DynaSettings` instance never
raises, changes no controller state, and only emits an error log record. -/
theorem register_non_provider (c : DynaSettingsController) (o : Nat) :
    (c.register (.other o)).result = .ok () ∧
    (c.register (.other o)).state = c ∧
    (c.register (.other o)).logs = [.error] :=
  ⟨rfl, rfl, rfl⟩

/-- C10: with trump mode enabled, the environment variable of the requested
name absent or empty, and no active provider, `dyna_value` returns every
non-`None` production value — falsy-but-present values such as `""`
included; the strict trump-mode falsy check applies only on the
active-provider path. -/
theorem dyna_value_trump_no_provider (c : DynaSettingsController)
    (env : String → Option String) (name : String) (fb : PyVal)
    (htrump : c.environ_vars_trump = true)
    (henv : env name = Option.none ∨ env name = some "")
    (hdet : c.detected_settings = Option.none)
    (hfb : fb ≠ PyVal.none) :
    c.dyna_value env name fb = .ok fb := by
  rcases henv with henv | henv <;>
    simp [dyna_value, htrump, henv, hdet, hfb]

end DynaSettingsController

/-! ## Witnesses -/

/-- Witness for C1 at concrete inputs: `provP` active, fresh `provQ`
detecting. -/
theorem register_second_match_witness :
    regP.detected_settings = some provP.init_values ∧
    regP.dyna_settings_classes.any
      (fun r => r.instId == provQ.instId) = false ∧
    provQ.detectResult = true ∧
    ((regP.register (.instA provQ)).result = .error .multipleMatch ∧
     (regP.register (.instA provQ)).state.did_find_multiple_matches = true ∧
     (regP.register (.instA provQ)).state.detected_settings
        = some provP.init_values ∧
     ∀ arg : RegArg,
       (regP.register arg).state.detected_settings
          = some provP.init_values) :=
  ⟨rfl, rfl, rfl,
   DynaSettingsController.register_second_match regP provP.init_values provQ
     rfl rfl rfl⟩

/-- Witness for C2 at a concrete input: registering `provP` twice on a
fresh controller. -/
theorem register_duplicate_witness :
    (DynaSettingsController.initial.register (.instA provP)).result
        = .ok () ∧
    ((regP.register (.instA provP)).result = .error .reRegistering ∧
     (regP.register (.instA provP)).state = regP) :=
  ⟨rfl,
   DynaSettingsController.register_duplicate
     DynaSettingsController.initial provP rfl⟩

/-- Witness for C3 at concrete inputs: a fresh controller, the name
`'HOST'` and the production value `'127.0.0.1'`. -/
theorem dyna_value_no_provider_witness :
    DynaSettingsController.initial.detected_settings = Option.none ∧
    DynaSettingsController.initial.environ_vars_trump = false ∧
    (((PyVal.str "127.0.0.1").isTruthy = true →
        DynaSettingsController.initial.dyna_value envNone "HOST"
          (.str "127.0.0.1") = .ok (.str "127.0.0.1")) ∧
     (PyVal.str "127.0.0.1" = PyVal.none →
        DynaSettingsController.initial.dyna_value envNone "HOST"
          (.str "127.0.0.1") = .error ())) :=
  ⟨rfl, rfl,
   DynaSettingsController.dyna_value_no_provider
     DynaSettingsController.initial envNone "HOST" (.str "127.0.0.1")
     rfl rfl⟩

/-- Witness for C4 at concrete inputs: the callable entry under `'SECRET'`
computes `'derived:abc'` from the production value `'abc'`, and a missing name
passes the production value through. -/
theorem get_value_spec_witness :
    provS.get_value "SECRET" (.str "abc") = .str "derived:abc" ∧
    provS.get_value "MISSING" (.str "abc") = .str "abc" :=
  ⟨((DynaSettings.get_value_spec provS "SECRET" (.str "abc")).2.1
      secretFn rfl).trans
      (by decide : secretFn (PyVal.str "abc") = PyVal.str "derived:abc"),
   (DynaSettings.get_value_spec provS "MISSING" (.str "abc")).1 rfl⟩

/-- Witness for C5 at concrete inputs: trump mode on, `HOST=10.0.0.9` in
the environment, an active provider supplying `'192.168.56.101'` for
`'HOST'`, production value `'anything'`. -/
theorem dyna_value_trump_env_witness :
    regPTrump.environ_vars_trump = true ∧
    envHost "HOST" = some "10.0.0.9" ∧
    "10.0.0.9" ≠ "" ∧
    regPTrump.detected_settings = some provP.init_values ∧
    regPTrump.dyna_value envHost "HOST" (.str "anything")
      = .ok (.str "10.0.0.9") :=
  ⟨rfl, rfl, by decide, rfl,
   DynaSettingsController.dyna_value_trump_env regPTrump envHost "HOST"
     (.str "anything") "10.0.0.9" rfl rfl (by decide)⟩

/-- Witness for C6 at concrete inputs: trump mode on, no environment
variable set, active provider giving `''` for `'HOST'`. -/
theorem dyna_value_trump_falsy_witness :
    regETrump.environ_vars_trump = true ∧
    (envNone "HOST" = Option.none ∨ envNone "HOST" = some "") ∧
    regETrump.detected_settings = some provE.init_values ∧
    (provE.init_values.get_value "HOST" (.str "fb")).isTruthy = false ∧
    regETrump.dyna_value envNone "HOST" (.str "fb") = .error () :=
  ⟨rfl, Or.inl rfl, rfl, rfl,
   DynaSettingsController.dyna_value_trump_falsy regETrump envNone "HOST"
     (.str "fb") provE.init_values rfl (Or.inl rfl) rfl rfl⟩

/-- Witness for C7 at concrete inputs: a trump-enabled controller stays
trump-enabled across a further registration sequence containing a
non-trump-wanting provider and a non-provider object. -/
theorem registerAll_trump_monotone_witness :
    cTrump.environ_vars_trump = true ∧
    (cTrump.registerAll [.instA provP, .other 7]).environ_vars_trump
      = true :=
  ⟨rfl,
   DynaSettingsController.registerAll_trump_monotone cTrump
     [.instA provP, .other 7] rfl⟩

/-- Witness for C10 at concrete inputs: trump mode on, nothing in the
environment, no provider, empty-string production value is returned. -/
theorem dyna_value_trump_no_provider_witness :
    cTrump.environ_vars_trump = true ∧
    (envNone "PORT" = Option.none ∨ envNone "PORT" = some "") ∧
    cTrump.detected_settings = Option.none ∧
    PyVal.str "" ≠ PyVal.none ∧
    cTrump.dyna_value envNone "PORT" (.str "") = .ok (.str "") :=
  ⟨rfl, Or.inl rfl, rfl, by decide,
   DynaSettingsController.dyna_value_trump_no_provider cTrump envNone
     "PORT" (.str "") rfl (Or.inl rfl) rfl (by decide)⟩
